import Mathlib

/-!
Shallow embedding of `src/Container.ts` (the synchronization orchestrator of the
vscode-reveal extension) and proofs about the claims of its specification.

The `Container` class is embedded as a state structure plus one Lean function
per method; JS `Promise` settlement, the lodash trailing `debounce` timer and
`Date.now()` are made explicit in the state (`promises`, `endDebounce`, `now`).
External collaborators that are not among the provided sources
(`EditorContext.ts`, `RevealServer.ts`, `Configuration.ts`) are modelled from
the specification's interface descriptions; each such definition is marked
`Modelled from the spec:` in its documentation.
-/

namespace VscodeReveal

/-- A text-buffer coordinate (the editor host's cursor position). -/
structure TextPosition where
  line : Nat
  character : Nat
  deriving DecidableEq

/-- The (horizontal, vertical) slide coordinate: the spec's Position Model. -/
structure SlidePosition where
  horizontal : Nat
  vertical : Nat
  deriving DecidableEq

/-- Modelled from the spec: a parsed slide (`ISlide.ts` is not among the
provided sources); only its identity matters to the orchestrator. -/
structure ISlide where
  text : String
  deriving DecidableEq

/-- Configuration values as a finite key/value association list, standing for a
JS object with string values. -/
abbrev ConfigMap := List (String × String)

/-- First-match association lookup on a `ConfigMap`. -/
def lookupc : ConfigMap → String → Option String
  | [], _ => none
  | (k, v) :: rest, key => if k = key then some v else lookupc rest key

/-- Left-biased choice on optional values, `a` if present else `b`. -/
def optOr (a b : Option String) : Option String :=
  match a with
  | some v => some v
  | none => b

/-- JS object spread `{...base, ...overlay}` (keys of `overlay` win on
collision): with first-match lookup, listing the overlay first gives it
priority. -/
def mergeConfig (base overlay : ConfigMap) : ConfigMap :=
  overlay ++ base

/-- Settlement state of a JS `Promise`. -/
inductive PromiseStatus where
  | pending
  | resolved (value : String)
  | rejected
  deriving DecidableEq

/-- Status of the promise with identity `p` in the bookkeeping list. -/
def statusOf : List (Nat × PromiseStatus) → Nat → Option PromiseStatus
  | [], _ => none
  | (q, st) :: rest, p => if q = p then some st else statusOf rest p

/-- Calling the stored `resolve` function of promise `p` with value `v`. -/
def resolvePromise (ps : List (Nat × PromiseStatus)) (p : Nat) (v : String) :
    List (Nat × PromiseStatus) :=
  ps.map fun q => if q.1 = p then (q.1, PromiseStatus.resolved v) else q

/-- The editor host's webview: only its `html` property is written by the
orchestrator. -/
structure Webview where
  html : String
  deriving DecidableEq

/-- Modelled from the spec: the backing server interface (`RevealServer.ts` is
not among the provided sources) — a listening flag and a base address. -/
structure RevealServer where
  isListening : Bool
  uri : String
  deriving DecidableEq

/-- Modelled from the spec: an open text document together with the outputs the
external document parser produces for it (the parser is out of scope, so its
results are data of the document): parsed slides, front-matter options, the
slide-boundary table `slideOfCursor`, and the re-derivations `latestSlides`
and `latestPosition` that a `refresh()` would apply. -/
structure TextDocument where
  languageId : String
  dirname : String
  parsedSlides : List ISlide
  frontmatterOptions : Option ConfigMap
  slideContentStr : String
  slideOfCursor : TextPosition → SlidePosition
  latestSlides : List ISlide
  latestPosition : SlidePosition → SlidePosition

/-- A text editor handle; `id` stands for JS reference identity. -/
structure TextEditor where
  id : Nat
  document : TextDocument

/-- A selection, with its `anchor` and `active` (cursor) ends. -/
structure Selection where
  anchor : TextPosition
  active : TextPosition
  deriving DecidableEq

/-- The editor host's selection-changed event payload. -/
structure TextEditorSelectionChangeEvent where
  textEditor : TextEditor
  selections : List Selection

/-- The editor host's configuration-changed event payload:
`affectsExtension` embeds `e.affectsConfiguration(extensionId)`. -/
structure ConfigurationChangeEvent where
  affectsExtension : Bool
  deriving DecidableEq

/-- Modelled from the spec: the Document Binding (`EditorContext.ts` is not
among the provided sources) — the live pairing of an editor handle with its
parsed slide model, front-matter options and current Position Model. -/
structure EditorContext where
  editorHandle : Nat
  dirname : String
  slides : List ISlide
  hasfrontConfig : Bool
  documentOptions : ConfigMap
  position : SlidePosition
  isMarkdownFile : Bool
  slideContent : String
  slideOfCursor : TextPosition → SlidePosition
  latestSlides : List ISlide
  latestPosition : SlidePosition → SlidePosition

/-- Number of slides of the binding. -/
def EditorContext.slideCount (c : EditorContext) : Nat :=
  c.slides.length

/-- Modelled from the spec: `updatePosition(cursorLocation)` derives the
Position Model from a cursor location using the binding's slide-boundary
table. -/
def EditorContext.updatePosition (c : EditorContext) (cursor : TextPosition) :
    EditorContext :=
  { c with position := c.slideOfCursor cursor }

/-- Modelled from the spec: `refresh()` re-derives slide/position state from
the latest document content. -/
def EditorContext.refresh (c : EditorContext) : EditorContext :=
  { c with slides := c.latestSlides, position := c.latestPosition c.position }

/-- Modelled from the spec: `goToSlide(top, vertical)` sets the position
directly, with no bounds validation. -/
def EditorContext.goToSlide (c : EditorContext) (top vertical : Nat) :
    EditorContext :=
  { c with position := ⟨top, vertical⟩ }

/-- Modelled from the spec: `getDocumentOptions` (`Configuration.ts` is not
among the provided sources) — the options snapshot handed to the Document
Binding constructor, derived from the effective configuration. -/
def getDocumentOptions (c : ConfigMap) : ConfigMap :=
  c

/-- Modelled from the spec: the Document Binding constructor
`new EditorContext(editor, options)` — binds the editor handle and takes the
parser's outputs for the editor's document; the front-matter overlay comes
from the parsed document. -/
def newEditorContext (editor : TextEditor) (snapshot : ConfigMap) :
    EditorContext :=
  { editorHandle := editor.id
    dirname := editor.document.dirname
    slides := editor.document.parsedSlides
    hasfrontConfig := editor.document.frontmatterOptions.isSome
    documentOptions := editor.document.frontmatterOptions.getD snapshot
    position := ⟨0, 0⟩
    isMarkdownFile := editor.document.languageId == "markdown"
    slideContent := editor.document.slideContentStr
    slideOfCursor := editor.document.slideOfCursor
    latestSlides := editor.document.latestSlides
    latestPosition := editor.document.latestPosition }

/-- JS template-literal interpolation of a nullable string: `null` interpolates
as the four characters `null`. -/
def jsInterp : Option String → String
  | none => "null"
  | some s => s

/-- Node's `path.join(a, b)` for the plain two-segment case. -/
def pathJoin (a b : String) : String :=
  a ++ "/" ++ b

/-- State of the `Container` class (`src/Container.ts`, lines 28-213).
`_configuration` is the cached base configuration; `externalSettings` is what
the injected `loadConfiguration()` collaborator would currently return;
`endDebounce` embeds the lodash debounced callback — `none` means no debounced
function is installed, `some none` means it is installed with its trailing
timer idle, `some (some d)` means the trailing timer is armed to fire at time
`d`; `promises` records every export promise ever created together with its
settlement status; `now` is the clock read by `Date.now()`. -/
structure Container where
  editorContext : Option EditorContext
  _configuration : ConfigMap
  externalSettings : ConfigMap
  webView : Option Webview
  server : RevealServer
  exportPromise : Option Nat
  endDebounce : Option (Option Nat)
  promises : List (Nat × PromiseStatus)
  nextPromiseId : Nat
  now : Nat

/-- Private getter `rootDir` (lines 105-110). -/
def Container.rootDir (s : Container) : String :=
  match s.editorContext with
  | some c => c.dirname
  | none => ""

/-- Private getter `slideContent` (lines 111-116). -/
def Container.slideContent (s : Container) : Option String :=
  match s.editorContext with
  | some c => some c.slideContent
  | none => none

/-- Public getter `configuration` (lines 117-122): the base configuration,
overlaid by the binding's front-matter options when a binding with front
config exists (JS object spread, overlay wins). -/
def Container.configuration (s : Container) : ConfigMap :=
  match s.editorContext with
  | some c =>
    if c.hasfrontConfig then mergeConfig s._configuration c.documentOptions
    else s._configuration
  | none => s._configuration

/-- Getter `slides` (lines 163-165). -/
def Container.slides (s : Container) : List ISlide :=
  match s.editorContext with
  | some c => c.slides
  | none => []

/-- Getter `slideCount` (lines 167-169). -/
def Container.slideCount (s : Container) : Nat :=
  match s.editorContext with
  | some c => c.slideCount
  | none => 0

/-- Method `isMarkdownFile` (lines 182-184). -/
def Container.isMarkdownFile (s : Container) : Bool :=
  match s.editorContext with
  | some c => c.isMarkdownFile
  | none => false

/-- Getter `exportPath` (lines 199-201): the configured `exportHTMLPath` when
truthy (a non-empty string), else `path.join(rootDir, 'export')`. -/
def Container.exportPath (s : Container) : String :=
  match lookupc s.configuration "exportHTMLPath" with
  | some p => if p = "" then pathJoin s.rootDir "export" else p
  | none => pathJoin s.rootDir "export"

/-- Method `getUri(withPosition = true)` (lines 171-180). -/
def Container.getUri (s : Container) (withPosition : Bool) : Option String :=
  if !s.server.isListening then none
  else
    match s.editorContext with
    | none => none
    | some c =>
      if withPosition then
        some (s.server.uri ++ "#/" ++ toString c.position.horizontal ++ "/" ++
          toString c.position.vertical ++ "/" ++ toString s.now)
      else some s.server.uri

/-- The markup written to the webview (lines 209-210); the JS template literal
keeps the newline and indentation of the source, and a `null` URI
interpolates as the text `null`. -/
def webViewHtml (uri : Option String) : String :=
  "<style>html, body, iframe \x7b height: 100% \x7d</style>\n      <iframe src=\"" ++
    jsInterp uri ++ "\" frameBorder=\"0\" style=\"width: 100%; height: 100%\" />"

/-- Method `refreshWebView(view?)` (lines 203-212): a supplied surface handle
replaces the bound one; if a surface is bound, its content is overwritten with
markup embedding `getUri()` (which defaults `withPosition` to `true`). -/
def Container.refreshWebView (s : Container) (view : Option Webview) : Container :=
  let s1 := match view with
    | some v => { s with webView := some v }
    | none => s
  match s1.webView with
  | some _ => { s1 with webView := some ⟨webViewHtml (s1.getUri true)⟩ }
  | none => s1

/-- Method `goToSlide(topindex, verticalIndex)` (lines 186-192). -/
def Container.goToSlide (s : Container) (topindex verticalIndex : Nat) : Container :=
  let s1 := match s.editorContext with
    | some c => { s with editorContext := some (c.goToSlide topindex verticalIndex) }
    | none => s
  s1.refreshWebView none

/-- Method `stopServer()` (lines 194-197); the status-bar update reads state
only. -/
def Container.stopServer (s : Container) : Container :=
  { s with server := { s.server with isListening := false } }

/-- Getter `isInExport` (lines 128-137): an absent session reports `false`;
otherwise, when the debounced `endDebounce` function is present it is invoked
— lodash `debounce` (re)starts its trailing 800 ms timer — and the query
reports `true`. -/
def Container.isInExport (s : Container) : Bool × Container :=
  match s.exportPromise with
  | none => (false, s)
  | some _ =>
    match s.endDebounce with
    | none => (true, s)
    | some _ => (true, { s with endDebounce := some (some (s.now + 800)) })

/-- Method `startExport()` (lines 141-159): from Idle it creates the session
promise and installs the debounced resolver (timer not yet armed); in every
case it then refreshes the bound surface (or triggers the external
`SHOW_REVEALJS` command, which does not change this state) and returns the
current session promise. -/
def Container.startExport (s : Container) : Nat × Container :=
  match s.exportPromise with
  | some p =>
    (p, if s.webView.isSome then s.refreshWebView none else s)
  | none =>
    let p := s.nextPromiseId
    let s1 : Container :=
      { s with exportPromise := some p
               promises := s.promises ++ [(p, PromiseStatus.pending)]
               nextPromiseId := p + 1
               endDebounce := some none }
    (p, if s1.webView.isSome then s1.refreshWebView none else s1)

/-- The trailing debounce callback firing (lines 148-154): when a session
promise exists it is resolved with the current `exportPath` and the session
state is cleared; otherwise the timer merely returns to idle. -/
def Container.debounceFire (s : Container) : Container :=
  match s.exportPromise with
  | some p =>
    { s with promises := resolvePromise s.promises p s.exportPath
             exportPromise := none
             endDebounce := none }
  | none => { s with endDebounce := some none }

/-- Observable calls made by the selection-changed handler, in order. -/
inductive Effect where
  | updatePosition (cursor : TextPosition)
  | refreshSurface (pushedUri : Option String)
  | bindingRefresh
  | statusBarUpdate
  | slidesExplorerUpdate
  deriving DecidableEq

/-- Handler `onDidChangeTextEditorSelection(event)` (lines 36-52), returning
the new state together with the ordered trace of calls it performed.
`Effect.refreshSurface` records the URI the surface push uses (the position at
that moment, before the binding refresh). -/
def Container.onDidChangeTextEditorSelection (s : Container)
    (event : TextEditorSelectionChangeEvent) : Container × List Effect :=
  match s.editorContext with
  | none => (s, [])
  | some ctx =>
    if event.textEditor.id ≠ ctx.editorHandle ∨ event.selections.length = 0 then
      (s, [])
    else
      match event.selections with
      | [] => (s, [])
      | sel :: _ =>
        let endP := sel.active
        let ctx1 := ctx.updatePosition endP
        let s1 := { s with editorContext := some ctx1 }
        let s2 := s1.refreshWebView none
        let s3 := { s2 with editorContext := some ctx1.refresh }
        (s3, [Effect.updatePosition endP,
              Effect.refreshSurface (s1.getUri true),
              Effect.bindingRefresh,
              Effect.statusBarUpdate,
              Effect.slidesExplorerUpdate])

/-- Handler `onDidChangeActiveTextEditor(editor)` (lines 54-63): a markdown
editor replaces the binding (built with the options snapshot of the current
effective configuration); any other editor, or no editor, leaves the binding
alone; in every case the server is started and refreshed and the surface and
auxiliary views are refreshed. -/
def Container.onDidChangeActiveTextEditor (s : Container)
    (editor : Option TextEditor) : Container :=
  let s1 := match editor with
    | some e =>
      if e.document.languageId = "markdown" then
        let ctx := newEditorContext e (getDocumentOptions s.configuration)
        { s with editorContext := some ctx }
      else s
    | none => s
  let s2 := { s1 with server := { s1.server with isListening := true } }
  s2.refreshWebView none

/-- Handler `onDidChangeTextDocument` (lines 65-67): a reserved no-op. -/
def Container.onDidChangeTextDocument (s : Container) : Container :=
  s

/-- Handler `onDidSaveTextDocument` (lines 69-71): a reserved no-op. -/
def Container.onDidSaveTextDocument (s : Container) : Container :=
  s

/-- Handler `onDidCloseTextDocument` (lines 73-75): a reserved no-op. -/
def Container.onDidCloseTextDocument (s : Container) : Container :=
  s

/-- Handler `onDidChangeConfiguration(e)` (lines 77-83): when the change
affects this extension's namespace, the base configuration is reloaded from
the settings collaborator. -/
def Container.onDidChangeConfiguration (s : Container)
    (e : ConfigurationChangeEvent) : Container :=
  if e.affectsExtension then { s with _configuration := s.externalSettings }
  else s

/-- The constructor (lines 85-103): base configuration loaded from settings,
no binding, server constructed but not yet listening, no webview, no export
session. -/
def initialState (settings : ConfigMap) (serverUri : String) (t : Nat) :
    Container :=
  { editorContext := none
    _configuration := settings
    externalSettings := settings
    webView := none
    server := { isListening := false, uri := serverUri }
    exportPromise := none
    endDebounce := none
    promises := []
    nextPromiseId := 0
    now := t }

/-- The trailing timer may fire only when it is armed and its deadline has been
reached. -/
def FireEnabled (s : Container) : Prop :=
  ∃ d, s.endDebounce = some (some d) ∧ d ≤ s.now

/-- An `isInExport` query issued at wall-clock time `t`. -/
def queryAt (s : Container) (t : Nat) : Container :=
  (Container.isInExport { s with now := t }).2

/-- A sequence of `isInExport` queries at the given wall-clock times. -/
def runQueries (s : Container) (ts : List Nat) : Container :=
  ts.foldl queryAt s

/-- Each query time beats the deadline current when it is issued (the next
deadline being 800 ms after the query). -/
def schedOk : Nat → List Nat → Bool
  | _, [] => true
  | d, t :: ts => if t < d then schedOk (t + 800) ts else false

/-- Along the whole query sequence the trailing timer is never able to fire. -/
def preventedRun : Container → List Nat → Prop
  | _, [] => True
  | s, t :: ts => ¬ FireEnabled { s with now := t } ∧ preventedRun (queryAt s t) ts

/-- One step of the event-driven system: any handler or public method invoked
by the host, the trailing debounce timer firing once armed and due, the clock
advancing, or the external settings changing. -/
inductive Step : Container → Container → Prop where
  | selection (s : Container) (ev : TextEditorSelectionChangeEvent) :
      Step s (s.onDidChangeTextEditorSelection ev).1
  | activeEditor (s : Container) (ed : Option TextEditor) :
      Step s (s.onDidChangeActiveTextEditor ed)
  | docChanged (s : Container) : Step s s.onDidChangeTextDocument
  | docSaved (s : Container) : Step s s.onDidSaveTextDocument
  | docClosed (s : Container) : Step s s.onDidCloseTextDocument
  | configChanged (s : Container) (e : ConfigurationChangeEvent) :
      Step s (s.onDidChangeConfiguration e)
  | exportQuery (s : Container) : Step s (s.isInExport).2
  | exportStart (s : Container) : Step s (s.startExport).2
  | slideJump (s : Container) (t v : Nat) : Step s (s.goToSlide t v)
  | serverStop (s : Container) : Step s s.stopServer
  | surfaceAttach (s : Container) (w : Option Webview) : Step s (s.refreshWebView w)
  | fire (s : Container) (d : Nat) : s.endDebounce = some (some d) → d ≤ s.now →
      Step s s.debounceFire
  | tick (s : Container) (dt : Nat) : Step s { s with now := s.now + dt }
  | settingsChanged (s : Container) (c : ConfigMap) :
      Step s { s with externalSettings := c }

/-- States reachable from some freshly constructed `Container`. -/
inductive Reachable : Container → Prop where
  | init (settings : ConfigMap) (serverUri : String) (t : Nat) :
      Reachable (initialState settings serverUri t)
  | step {s s' : Container} : Reachable s → Step s s' → Reachable s'

/-- The three pieces of export-session bookkeeping. -/
def promiseFields (s : Container) :
    Option Nat × List (Nat × PromiseStatus) × Nat :=
  (s.exportPromise, s.promises, s.nextPromiseId)

/-- Invariant of the export bookkeeping: a live session's promise is recorded
pending, no recorded promise is ever rejected, and recorded identities are
below the freshness counter. -/
def Inv (s : Container) : Prop :=
  (∀ p, s.exportPromise = some p → statusOf s.promises p = some PromiseStatus.pending)
  ∧ (∀ q st, (q, st) ∈ s.promises → st ≠ PromiseStatus.rejected)
  ∧ (∀ q st, (q, st) ∈ s.promises → q < s.nextPromiseId)

/-- A markdown document with five parsed slides, used as concrete test data. -/
def docA : TextDocument :=
  { languageId := "markdown"
    dirname := "/home/a"
    parsedSlides := [⟨"a1"⟩, ⟨"a2"⟩, ⟨"a3"⟩, ⟨"a4"⟩, ⟨"a5"⟩]
    frontmatterOptions := none
    slideContentStr := "contentA"
    slideOfCursor := fun c => ⟨c.line, c.character⟩
    latestSlides := [⟨"a1"⟩, ⟨"a2"⟩]
    latestPosition := fun p => ⟨p.horizontal + 1, p.vertical⟩ }

/-- The editor showing `docA`. -/
def edA : TextEditor :=
  { id := 1, document := docA }

/-- A non-markdown document, used as concrete test data. -/
def docB : TextDocument :=
  { docA with languageId := "plaintext", dirname := "/home/b", parsedSlides := [] }

/-- The editor showing `docB`. -/
def edB : TextEditor :=
  { id := 2, document := docB }

/-- A markdown document carrying front-matter configuration overrides. -/
def docF : TextDocument :=
  { docA with frontmatterOptions := some [("theme", "black")] }

/-- The editor showing `docF`. -/
def edF : TextEditor :=
  { id := 3, document := docF }

/-- The Document Binding for `edA`. -/
def ctxA : EditorContext :=
  newEditorContext edA []

/-- The Document Binding for `edF`. -/
def ctxF : EditorContext :=
  newEditorContext edF []

/-- A freshly constructed container. -/
def s0 : Container :=
  initialState [] "http://localhost:9000/" 0

/-- A container bound to `docA`, with its server listening. -/
def sA : Container :=
  { s0 with editorContext := some ctxA
            server := { isListening := true, uri := "http://localhost:9000/" } }

/-- A container bound to `docF` (front-matter options present). -/
def sF : Container :=
  { s0 with editorContext := some ctxF }

/-- A container with a surface attached but its server not listening. -/
def sNull : Container :=
  { s0 with webView := some ⟨"previous content"⟩ }

/-- A selection-changed event on `edA` with cursor at line 3, character 2. -/
def evA : TextEditorSelectionChangeEvent :=
  { textEditor := edA, selections := [⟨⟨0, 0⟩, ⟨3, 2⟩⟩] }

/-- The container right after `startExport()` from Idle. -/
def sPending : Container :=
  (s0.startExport).2

/-- `sPending` after one `isInExport` query (timer armed for time 800) and the
clock reaching 800. -/
def sFire : Container :=
  { (sPending.isInExport).2 with now := 800 }

theorem lookupc_merge (b o : ConfigMap) (k : String) :
    lookupc (mergeConfig b o) k = optOr (lookupc o k) (lookupc b k) := by
  induction o with
  | nil => simp [mergeConfig, lookupc, optOr]
  | cons kv rest ih =>
    obtain ⟨k', v'⟩ := kv
    by_cases hk : k' = k
    · simp [mergeConfig, lookupc, optOr, hk]
    · simpa [mergeConfig, lookupc, optOr, hk] using ih

theorem statusOf_eq_none_of_lt (ps : List (Nat × PromiseStatus)) (n : Nat)
    (h : ∀ q st, (q, st) ∈ ps → q < n) : statusOf ps n = none := by
  induction ps with
  | nil => rfl
  | cons e rest ih =>
    obtain ⟨q, st⟩ := e
    have hq : q ≠ n := Nat.ne_of_lt (h q st (by simp))
    simp only [statusOf, if_neg hq]
    exact ih fun q' st' hm => h q' st' (by simp [hm])

theorem statusOf_append_fresh (ps : List (Nat × PromiseStatus)) (p : Nat)
    (st0 : PromiseStatus) (h : statusOf ps p = none) :
    statusOf (ps ++ [(p, st0)]) p = some st0 := by
  induction ps with
  | nil => simp [statusOf]
  | cons e rest ih =>
    obtain ⟨q, st⟩ := e
    by_cases hq : q = p
    · simp [statusOf, hq] at h
    · simp only [statusOf, List.cons_append, if_neg hq] at h ⊢
      exact ih h

theorem statusOf_cons (q : Nat) (st : PromiseStatus)
    (rest : List (Nat × PromiseStatus)) (p : Nat) :
    statusOf ((q, st) :: rest) p = if q = p then some st else statusOf rest p :=
  rfl

theorem resolvePromise_cons (q : Nat) (st : PromiseStatus)
    (rest : List (Nat × PromiseStatus)) (p : Nat) (v : String) :
    resolvePromise ((q, st) :: rest) p v =
      (if q = p then (q, PromiseStatus.resolved v) else (q, st)) ::
        resolvePromise rest p v :=
  rfl

theorem statusOf_resolvePromise (ps : List (Nat × PromiseStatus)) (p : Nat)
    (v : String) (h : (statusOf ps p).isSome) :
    statusOf (resolvePromise ps p v) p = some (PromiseStatus.resolved v) := by
  induction ps with
  | nil => simp [statusOf] at h
  | cons e rest ih =>
    obtain ⟨q, st⟩ := e
    rw [resolvePromise_cons]
    by_cases hq : q = p
    · subst hq
      rw [if_pos rfl, statusOf_cons, if_pos rfl]
    · rw [statusOf_cons, if_neg hq] at h
      rw [if_neg hq, statusOf_cons, if_neg hq]
      exact ih h

theorem mem_resolvePromise {ps : List (Nat × PromiseStatus)} {p : Nat}
    {v : String} {q : Nat} {st : PromiseStatus}
    (h : (q, st) ∈ resolvePromise ps p v) :
    ∃ st', (q, st') ∈ ps ∧ (st = PromiseStatus.resolved v ∨ st = st') := by
  obtain ⟨a, ha, hEq⟩ := List.mem_map.1 h
  obtain ⟨a1, a2⟩ := a
  by_cases hap : a1 = p
  · rw [if_pos hap] at hEq
    obtain ⟨h1, h2⟩ := Prod.mk.injEq .. ▸ hEq
    exact ⟨a2, by rw [← h1]; exact ha, Or.inl h2.symm⟩
  · rw [if_neg hap] at hEq
    exact ⟨st, hEq ▸ ha, Or.inr rfl⟩

theorem refreshWebView_shape (s : Container) (v : Option Webview) :
    ∃ w, s.refreshWebView v = { s with webView := w } := by
  obtain ⟨ec, cf, es, wv, sv, ep, ed, ps, np, nw⟩ := s
  cases v with
  | none =>
    cases wv with
    | none => exact ⟨none, rfl⟩
    | some w0 => exact ⟨_, rfl⟩
  | some v0 => exact ⟨_, rfl⟩

theorem goToSlide_shape (s : Container) (t v : Nat) :
    ∃ ec w, s.goToSlide t v = { s with editorContext := ec, webView := w } := by
  obtain ⟨sec, cf, es, wv, sv, ep, ed, ps, np, nw⟩ := s
  cases sec with
  | none =>
    obtain ⟨w, hw⟩ := refreshWebView_shape ⟨none, cf, es, wv, sv, ep, ed, ps, np, nw⟩ none
    exact ⟨none, w, hw⟩
  | some c =>
    obtain ⟨w, hw⟩ :=
      refreshWebView_shape ⟨some (c.goToSlide t v), cf, es, wv, sv, ep, ed, ps, np, nw⟩ none
    exact ⟨some (c.goToSlide t v), w, by unfold Container.goToSlide; exact hw⟩

theorem selection_shape (s : Container) (ev : TextEditorSelectionChangeEvent) :
    ∃ ec w, (s.onDidChangeTextEditorSelection ev).1 =
      { s with editorContext := ec, webView := w } := by
  obtain ⟨sec, cf, es, wv, sv, ep, ed, ps, np, nw⟩ := s
  obtain ⟨evEd, evSels⟩ := ev
  cases sec with
  | none => exact ⟨none, wv, rfl⟩
  | some ctx =>
    by_cases hid : evEd.id ≠ ctx.editorHandle
    · refine ⟨some ctx, wv, ?_⟩
      unfold Container.onDidChangeTextEditorSelection
      dsimp only
      rw [if_pos (Or.inl hid)]
    · cases evSels with
      | nil =>
        refine ⟨some ctx, wv, ?_⟩
        unfold Container.onDidChangeTextEditorSelection
        dsimp only
        rw [if_pos (Or.inr (List.length_nil))]
      | cons sel rest =>
        have hcond :
            ¬(evEd.id ≠ ctx.editorHandle ∨
              (sel :: rest : List Selection).length = 0) := by
          rintro (h | h)
          · exact hid h
          · simp at h
        obtain ⟨w, hw⟩ := refreshWebView_shape
          ⟨some (ctx.updatePosition sel.active), cf, es, wv, sv, ep, ed, ps, np, nw⟩ none
        refine ⟨some (ctx.updatePosition sel.active).refresh, w, ?_⟩
        unfold Container.onDidChangeTextEditorSelection
        dsimp only
        rw [if_neg hcond]
        dsimp only
        rw [hw]

theorem activeEditor_shape (s : Container) (edo : Option TextEditor) :
    ∃ ec w, s.onDidChangeActiveTextEditor edo =
      { s with editorContext := ec, webView := w,
               server := ⟨true, s.server.uri⟩ } := by
  obtain ⟨sec, cf, es, wv, sv, ep, ed, ps, np, nw⟩ := s
  obtain ⟨svl, svu⟩ := sv
  cases edo with
  | none =>
    obtain ⟨w, hw⟩ :=
      refreshWebView_shape ⟨sec, cf, es, wv, ⟨true, svu⟩, ep, ed, ps, np, nw⟩ none
    exact ⟨sec, w, hw⟩
  | some e =>
    by_cases hmd : e.document.languageId = "markdown"
    · obtain ⟨w, hw⟩ := refreshWebView_shape
        ⟨some (newEditorContext e (getDocumentOptions
          (Container.configuration ⟨sec, cf, es, wv, ⟨svl, svu⟩, ep, ed, ps, np, nw⟩))),
         cf, es, wv, ⟨true, svu⟩, ep, ed, ps, np, nw⟩ none
      refine ⟨some (newEditorContext e (getDocumentOptions
        (Container.configuration ⟨sec, cf, es, wv, ⟨svl, svu⟩, ep, ed, ps, np, nw⟩))), w, ?_⟩
      unfold Container.onDidChangeActiveTextEditor
      dsimp only
      rw [if_pos hmd]
      exact hw
    · obtain ⟨w, hw⟩ :=
        refreshWebView_shape ⟨sec, cf, es, wv, ⟨true, svu⟩, ep, ed, ps, np, nw⟩ none
      refine ⟨sec, w, ?_⟩
      unfold Container.onDidChangeActiveTextEditor
      dsimp only
      rw [if_neg hmd]
      exact hw

theorem isInExport_shape (s : Container) :
    ∃ e, (s.isInExport).2 = { s with endDebounce := e } := by
  obtain ⟨sec, cf, es, wv, sv, ep, ed, ps, np, nw⟩ := s
  cases ep with
  | none => exact ⟨ed, rfl⟩
  | some p =>
    cases ed with
    | none => exact ⟨none, rfl⟩
    | some t => exact ⟨_, rfl⟩

theorem config_shape (s : Container) (e : ConfigurationChangeEvent) :
    ∃ c, s.onDidChangeConfiguration e = { s with _configuration := c } := by
  obtain ⟨sec, cf, es, wv, sv, ep, ed, ps, np, nw⟩ := s
  unfold Container.onDidChangeConfiguration
  cases e.affectsExtension with
  | false => exact ⟨cf, rfl⟩
  | true => exact ⟨es, rfl⟩

theorem startExport_of_some (s : Container) (p : Nat)
    (hp : s.exportPromise = some p) :
    (s.startExport).1 = p ∧ (s.startExport).2.exportPromise = some p ∧
    (s.startExport).2.promises = s.promises ∧
    (s.startExport).2.nextPromiseId = s.nextPromiseId := by
  obtain ⟨sec, cf, es, wv, sv, ep, ed, ps, np, nw⟩ := s
  cases hp
  cases wv with
  | none => exact ⟨rfl, rfl, rfl, rfl⟩
  | some w0 => exact ⟨rfl, rfl, rfl, rfl⟩

theorem startExport_of_none (s : Container)
    (hp : s.exportPromise = none) :
    (s.startExport).1 = s.nextPromiseId ∧
    (s.startExport).2.exportPromise = some s.nextPromiseId ∧
    (s.startExport).2.promises = s.promises ++ [(s.nextPromiseId, PromiseStatus.pending)] ∧
    (s.startExport).2.nextPromiseId = s.nextPromiseId + 1 ∧
    (s.startExport).2.endDebounce = some none := by
  obtain ⟨sec, cf, es, wv, sv, ep, ed, ps, np, nw⟩ := s
  cases hp
  cases wv with
  | none => exact ⟨rfl, rfl, rfl, rfl, rfl⟩
  | some w0 => exact ⟨rfl, rfl, rfl, rfl, rfl⟩

theorem isInExport_of_none (s : Container) (h : s.exportPromise = none) :
    s.isInExport = (false, s) := by
  obtain ⟨sec, cf, es, wv, sv, ep, ed, ps, np, nw⟩ := s
  cases h
  rfl

theorem isInExport_of_pending (s : Container) (p : Nat) (t : Option Nat)
    (h1 : s.exportPromise = some p) (h2 : s.endDebounce = some t) :
    s.isInExport = (true, { s with endDebounce := some (some (s.now + 800)) }) := by
  obtain ⟨sec, cf, es, wv, sv, ep, ed, ps, np, nw⟩ := s
  cases h1
  cases h2
  rfl

theorem queryAt_spec (s : Container) (t p : Nat) (d : Option Nat)
    (h1 : s.exportPromise = some p) (h2 : s.endDebounce = some d) :
    queryAt s t = { s with now := t, endDebounce := some (some (t + 800)) } := by
  obtain ⟨sec, cf, es, wv, sv, ep, ed, ps, np, nw⟩ := s
  cases h1
  cases h2
  rfl

theorem debounceFire_of_some (s : Container) (p : Nat)
    (hp : s.exportPromise = some p) :
    s.debounceFire =
      { s with promises := resolvePromise s.promises p s.exportPath,
               exportPromise := none, endDebounce := none } := by
  obtain ⟨sec, cf, es, wv, sv, ep, ed, ps, np, nw⟩ := s
  cases hp
  rfl

theorem debounceFire_of_none (s : Container) (hp : s.exportPromise = none) :
    s.debounceFire = { s with endDebounce := some none } := by
  obtain ⟨sec, cf, es, wv, sv, ep, ed, ps, np, nw⟩ := s
  cases hp
  rfl

theorem inv_congr {s s' : Container} (h : promiseFields s' = promiseFields s)
    (hi : Inv s) : Inv s' := by
  have h1 : s'.exportPromise = s.exportPromise := congrArg Prod.fst h
  have h2 : s'.promises = s.promises := congrArg (fun x => x.2.1) h
  have h3 : s'.nextPromiseId = s.nextPromiseId := congrArg (fun x => x.2.2) h
  unfold Inv at hi ⊢
  rw [h1, h2, h3]
  exact hi

theorem inv_step {s s' : Container} (hi : Inv s) (hs : Step s s') : Inv s' := by
  cases hs with
  | selection ev =>
    obtain ⟨ec, w, h⟩ := selection_shape s ev
    rw [h]; exact hi
  | activeEditor ed =>
    obtain ⟨ec, w, h⟩ := activeEditor_shape s ed
    rw [h]; exact hi
  | docChanged => exact hi
  | docSaved => exact hi
  | docClosed => exact hi
  | configChanged e =>
    obtain ⟨c, h⟩ := config_shape s e
    rw [h]; exact hi
  | exportQuery =>
    obtain ⟨e, h⟩ := isInExport_shape s
    rw [h]; exact hi
  | exportStart =>
    cases hp : s.exportPromise with
    | some p =>
      obtain ⟨h1, h2, h3, h4⟩ := startExport_of_some s p hp
      refine ⟨fun q hq => ?_, fun q st hm => ?_, fun q st hm => ?_⟩
      · rw [h2] at hq
        injection hq with hpq
        rw [h3, ← hpq]
        exact hi.1 p hp
      · rw [h3] at hm
        exact hi.2.1 q st hm
      · rw [h3] at hm
        rw [h4]
        exact hi.2.2 q st hm
    | none =>
      obtain ⟨h1, h2, h3, h4, h5⟩ := startExport_of_none s hp
      have hfresh : statusOf s.promises s.nextPromiseId = none :=
        statusOf_eq_none_of_lt _ _ fun q st hm => hi.2.2 q st hm
      refine ⟨fun q hq => ?_, fun q st hm => ?_, fun q st hm => ?_⟩
      · rw [h2] at hq
        injection hq with hpq
        rw [h3, ← hpq]
        exact statusOf_append_fresh _ _ _ hfresh
      · rw [h3] at hm
        rcases List.mem_append.1 hm with hm1 | hm2
        · exact hi.2.1 q st hm1
        · simp only [List.mem_singleton, Prod.mk.injEq] at hm2
          rw [hm2.2]
          intro hcon
          cases hcon
      · rw [h3] at hm
        rw [h4]
        rcases List.mem_append.1 hm with hm1 | hm2
        · exact Nat.lt_succ_of_lt (hi.2.2 q st hm1)
        · simp only [List.mem_singleton, Prod.mk.injEq] at hm2
          rw [hm2.1]
          exact Nat.lt_succ_self _
  | slideJump t v =>
    obtain ⟨ec, w, h⟩ := goToSlide_shape s t v
    rw [h]; exact hi
  | serverStop => exact hi
  | surfaceAttach w =>
    obtain ⟨w', h⟩ := refreshWebView_shape s w
    rw [h]; exact hi
  | fire d h1 h2 =>
    cases hp : s.exportPromise with
    | none =>
      rw [debounceFire_of_none s hp]
      exact hi
    | some p =>
      rw [debounceFire_of_some s p hp]
      refine ⟨fun q hq => ?_, fun q st hm => ?_, fun q st hm => ?_⟩
      · cases hq
      · obtain ⟨st', hm', hor⟩ := mem_resolvePromise hm
        rcases hor with h | h
        · rw [h]
          intro hcon
          cases hcon
        · rw [h]
          exact hi.2.1 q st' hm'
      · obtain ⟨st', hm', hor⟩ := mem_resolvePromise hm
        exact hi.2.2 q st' hm'
  | tick dt => exact hi
  | settingsChanged c => exact hi

theorem reachable_inv {s : Container} (h : Reachable s) : Inv s := by
  induction h with
  | init settings serverUri t =>
    refine ⟨fun p hp => ?_, fun q st hm => ?_, fun q st hm => ?_⟩
    · simp [initialState] at hp
    · simp [initialState] at hm
    · simp [initialState] at hm
  | step hr hs ih => exact inv_step ih hs

theorem preventedRun_of_schedOk :
    ∀ (ts : List Nat) (s : Container) (p d : Nat),
      s.exportPromise = some p → s.endDebounce = some (some d) →
      schedOk d ts = true →
      preventedRun s ts ∧ (runQueries s ts).exportPromise = some p := by
  intro ts
  induction ts with
  | nil =>
    intro s p d h1 _ _
    exact ⟨trivial, h1⟩
  | cons t ts ih =>
    intro s p d h1 h2 h3
    have htd : t < d := by
      by_contra hc
      rw [schedOk, if_neg hc] at h3
      cases h3
    have hrest : schedOk (t + 800) ts = true := by
      rw [schedOk, if_pos htd] at h3
      exact h3
    have hq : queryAt s t = { s with now := t, endDebounce := some (some (t + 800)) } :=
      queryAt_spec s t p (some d) h1 h2
    have hnext :=
      ih { s with now := t, endDebounce := some (some (t + 800)) } p (t + 800) h1 rfl hrest
    refine ⟨⟨?_, ?_⟩, ?_⟩
    · rintro ⟨d', hd', hle⟩
      have hd2 : s.endDebounce = some (some d') := hd'
      rw [h2] at hd2
      injection hd2 with hd3
      injection hd3 with hd4
      have : d ≤ t := hd4 ▸ hle
      omega
    · rw [hq]
      exact hnext.1
    · show (runQueries s (t :: ts)).exportPromise = some p
      unfold runQueries
      rw [List.foldl_cons]
      rw [show queryAt s t = _ from hq]
      exact hnext.2

theorem refreshWebView_editorContext (s : Container) (v : Option Webview) :
    (s.refreshWebView v).editorContext = s.editorContext := by
  obtain ⟨w, hw⟩ := refreshWebView_shape s v
  rw [hw]

theorem refreshWebView_server (s : Container) (v : Option Webview) :
    (s.refreshWebView v).server = s.server := by
  obtain ⟨w, hw⟩ := refreshWebView_shape s v
  rw [hw]

theorem refreshWebView_exportPromise (s : Container) (v : Option Webview) :
    (s.refreshWebView v).exportPromise = s.exportPromise := by
  obtain ⟨w, hw⟩ := refreshWebView_shape s v
  rw [hw]

theorem startExport_exportPromise (s : Container) :
    (s.startExport).2.exportPromise = some (s.startExport).1 := by
  obtain ⟨sec, cf, es, wv, sv, ep, ed, ps, np, nw⟩ := s
  cases ep with
  | some p =>
    cases wv with
    | none => rfl
    | some w0 => rfl
  | none =>
    cases wv with
    | none => rfl
    | some w0 => rfl

/-- Claim C1, counterexample: switching the active editor from a bound markdown
document with five slides (`sA`/`docA`) to a non-markdown editor (`edB`) does
NOT make the Document Binding absent — contrary to the claim, the old binding
is retained, `slides` still reports the five old slides, `slideCount` is still
5, and `getUri` still reports a URI rather than absent. -/
theorem C1_counterexample :
    Container.slides (Container.onDidChangeActiveTextEditor sA (some edB)) =
      [⟨"a1"⟩, ⟨"a2"⟩, ⟨"a3"⟩, ⟨"a4"⟩, ⟨"a5"⟩]
    ∧ Container.slideCount (Container.onDidChangeActiveTextEditor sA (some edB)) = 5
    ∧ (Container.onDidChangeActiveTextEditor sA (some edB)).editorContext ≠ none
    ∧ Container.getUri (Container.onDidChangeActiveTextEditor sA (some edB)) true =
        some "http://localhost:9000/#/0/0/0" := by
  refine ⟨rfl, rfl, ?_, rfl⟩
  have h : (Container.onDidChangeActiveTextEditor sA (some edB)).editorContext =
      some ctxA := rfl
  rw [h]
  intro hcon
  cases hcon

/-- Claim C1, amended: when the editor host reports a new active editor whose
content type is the supported markup language, the old Document Binding is
discarded and replaced with a fresh one built from that editor; when the new
editor is non-markdown or there is no editor, the binding is left unchanged —
it does never become absent — so `slides` and `slideCount` keep reporting the
old binding's values; in every case the handler (re)starts the server. -/
theorem C1_binding_replacement (s : Container) (editor : Option TextEditor) :
    (∀ e, editor = some e → e.document.languageId = "markdown" →
      (s.onDidChangeActiveTextEditor editor).editorContext =
        some (newEditorContext e (getDocumentOptions s.configuration)))
    ∧ (∀ e, editor = some e → e.document.languageId ≠ "markdown" →
      (s.onDidChangeActiveTextEditor editor).editorContext = s.editorContext
      ∧ (s.onDidChangeActiveTextEditor editor).slides = s.slides
      ∧ (s.onDidChangeActiveTextEditor editor).slideCount = s.slideCount)
    ∧ (editor = none →
      (s.onDidChangeActiveTextEditor editor).editorContext = s.editorContext
      ∧ (s.onDidChangeActiveTextEditor editor).slides = s.slides
      ∧ (s.onDidChangeActiveTextEditor editor).slideCount = s.slideCount)
    ∧ (s.onDidChangeActiveTextEditor editor).server.isListening = true := by
  have hecn : ∀ e : TextEditor, editor = some e →
      e.document.languageId ≠ "markdown" →
      (s.onDidChangeActiveTextEditor editor).editorContext = s.editorContext := by
    intro e he hmd
    subst he
    show (Container.onDidChangeActiveTextEditor s (some e)).editorContext = _
    unfold Container.onDidChangeActiveTextEditor
    dsimp only
    rw [if_neg hmd]
    exact refreshWebView_editorContext _ none
  have hecnone : editor = none →
      (s.onDidChangeActiveTextEditor editor).editorContext = s.editorContext := by
    intro he
    subst he
    exact refreshWebView_editorContext _ none
  refine ⟨?_, ?_, ?_, ?_⟩
  · intro e he hmd
    subst he
    unfold Container.onDidChangeActiveTextEditor
    dsimp only
    rw [if_pos hmd]
    exact refreshWebView_editorContext _ none
  · intro e he hmd
    have hec := hecn e he hmd
    refine ⟨hec, ?_, ?_⟩
    · unfold Container.slides
      rw [hec]
    · unfold Container.slideCount
      rw [hec]
  · intro he
    have hec := hecnone he
    refine ⟨hec, ?_, ?_⟩
    · unfold Container.slides
      rw [hec]
    · unfold Container.slideCount
      rw [hec]
  · cases editor with
    | none =>
      have h := refreshWebView_server
        ({ s with server := { s.server with isListening := true } }) none
      exact congrArg RevealServer.isListening h
    | some e =>
      by_cases hmd : e.document.languageId = "markdown"
      · unfold Container.onDidChangeActiveTextEditor
        dsimp only
        rw [if_pos hmd]
        have h := refreshWebView_server
          (Container.mk (some (newEditorContext e (getDocumentOptions s.configuration)))
            s._configuration s.externalSettings s.webView ⟨true, s.server.uri⟩
            s.exportPromise s.endDebounce s.promises s.nextPromiseId s.now) none
        exact congrArg RevealServer.isListening h
      · unfold Container.onDidChangeActiveTextEditor
        dsimp only
        rw [if_neg hmd]
        have h := refreshWebView_server
          ({ s with server := { s.server with isListening := true } }) none
        exact congrArg RevealServer.isListening h

/-- Witness for the amended claim C1 at concrete inputs: switching to the
non-markdown `edB` keeps `sA`'s binding, and switching to the markdown `edA`
installs a fresh binding for it. -/
theorem C1_binding_replacement_witness :
    (Container.onDidChangeActiveTextEditor sA (some edB)).editorContext =
      sA.editorContext
    ∧ (Container.onDidChangeActiveTextEditor sA (some edA)).editorContext =
        some (newEditorContext edA (getDocumentOptions sA.configuration)) := by
  constructor
  · exact ((C1_binding_replacement sA (some edB)).2.1 edB rfl (by decide)).1
  · exact (C1_binding_replacement sA (some edA)).1 edA rfl rfl

/-- Claim C2 (confirmed): `getUri(withPosition)` is absent exactly when the
server is not listening or no Document Binding exists; otherwise it is
`base#/<horizontal>/<vertical>/<timestamp>` for `withPosition = true` (with
the coordinates of the current Position Model and the `Date.now()` clock) and
exactly `base` for `withPosition = false` — so it contains no `#` whenever the
base address contains none. -/
theorem C2_getUri_spec (s : Container) :
    (∀ b, Container.getUri s b = none ↔
      (s.server.isListening = false ∨ s.editorContext = none))
    ∧ (∀ c, s.editorContext = some c → s.server.isListening = true →
        Container.getUri s true =
          some (s.server.uri ++ "#/" ++ toString c.position.horizontal ++ "/" ++
            toString c.position.vertical ++ "/" ++ toString s.now)
        ∧ Container.getUri s false = some s.server.uri)
    ∧ (s.server.uri.contains '#' = false →
        ∀ r, Container.getUri s false = some r → r.contains '#' = false) := by
  obtain ⟨sec, cf, es, wv, sv, ep, ed, ps, np, nw⟩ := s
  obtain ⟨svl, svu⟩ := sv
  refine ⟨?_, ?_, ?_⟩
  · intro b
    cases svl with
    | false => cases sec <;> cases b <;> simp [Container.getUri]
    | true => cases sec <;> cases b <;> simp [Container.getUri]
  · intro c hc hl
    cases sec with
    | none => cases hc
    | some c0 =>
      injection hc with hc0
      subst hc0
      cases svl with
      | false => cases hl
      | true => exact ⟨rfl, rfl⟩
  · intro hnh r hr
    cases svl with
    | false => cases hr
    | true =>
      cases sec with
      | none => cases hr
      | some c =>
        injection hr with h
        rw [← h]
        exact hnh

/-- Witness for claim C2 at the concrete bound, listening state `sA`. -/
theorem C2_getUri_witness :
    Container.getUri sA true = some "http://localhost:9000/#/0/0/0"
    ∧ Container.getUri sA false = some "http://localhost:9000/" := by
  have h := (C2_getUri_spec sA).2.1 ctxA rfl rfl
  exact ⟨h.1, h.2⟩

/-- Claim C3 (confirmed): `startExport()` is an idempotent join — a second call
without intervening resolution returns the identical promise and creates no
new session (promise bookkeeping and freshness counter unchanged); while
Pending it returns the live session's promise untouched, and only from Idle
does it create a fresh pending promise. -/
theorem C3_startExport_idempotent (s : Container) :
    ((s.startExport).2.startExport).1 = (s.startExport).1
    ∧ ((s.startExport).2.startExport).2.promises = (s.startExport).2.promises
    ∧ ((s.startExport).2.startExport).2.nextPromiseId = (s.startExport).2.nextPromiseId
    ∧ (∀ p, s.exportPromise = some p →
        (s.startExport).1 = p ∧ (s.startExport).2.exportPromise = some p
        ∧ (s.startExport).2.promises = s.promises
        ∧ (s.startExport).2.nextPromiseId = s.nextPromiseId)
    ∧ (s.exportPromise = none →
        (s.startExport).1 = s.nextPromiseId
        ∧ (s.startExport).2.exportPromise = some s.nextPromiseId
        ∧ (s.startExport).2.promises =
            s.promises ++ [(s.nextPromiseId, PromiseStatus.pending)]) := by
  obtain ⟨sec, cf, es, wv, sv, ep, ed, ps, np, nw⟩ := s
  cases ep with
  | some p =>
    cases wv with
    | none =>
      refine ⟨rfl, rfl, rfl, fun q hq => ?_, fun h => ?_⟩
      · cases hq
        exact ⟨rfl, rfl, rfl, rfl⟩
      · cases h
    | some w0 =>
      refine ⟨rfl, rfl, rfl, fun q hq => ?_, fun h => ?_⟩
      · cases hq
        exact ⟨rfl, rfl, rfl, rfl⟩
      · cases h
  | none =>
    cases wv with
    | none =>
      refine ⟨rfl, rfl, rfl, fun q hq => ?_, fun h => ?_⟩
      · cases hq
      · exact ⟨rfl, rfl, rfl⟩
    | some w0 =>
      refine ⟨rfl, rfl, rfl, fun q hq => ?_, fun h => ?_⟩
      · cases hq
      · exact ⟨rfl, rfl, rfl⟩

/-- Witness for claim C3: from the live session `sPending` a repeated
`startExport()` returns the same promise 0; from the idle `s0` it creates
promise 0. -/
theorem C3_startExport_witness :
    (Container.startExport sPending).1 = 0
    ∧ (Container.startExport s0).1 = 0 := by
  constructor
  · exact ((C3_startExport_idempotent sPending).2.2.2.1 0 rfl).1
  · exact ((C3_startExport_idempotent s0).2.2.2.2 rfl).1

/-- Claim C4 (confirmed): `isInExport` reports `false` when no session exists
(and changes nothing); while a session is Pending it re-arms the 800 ms
trailing debounce window before reporting `true`, so the timer cannot fire at
any instant earlier than 800 ms after the query; consequently any schedule of
repeated queries each issued before the current deadline keeps the timer from
ever firing and the session stays pending, while once the clock passes the
deadline with no further query the timer is enabled and its firing resolves
the session's promise with the current export path. -/
theorem C4_isInExport_requery (s : Container) :
    (s.exportPromise = none → s.isInExport = (false, s))
    ∧ (∀ p t, s.exportPromise = some p → s.endDebounce = some t →
        (s.isInExport).1 = true
        ∧ (s.isInExport).2.endDebounce = some (some (s.now + 800))
        ∧ (∀ u, u < s.now + 800 → ¬ FireEnabled { (s.isInExport).2 with now := u })
        ∧ (∀ ts, schedOk (s.now + 800) ts = true →
            preventedRun (s.isInExport).2 ts
            ∧ (runQueries (s.isInExport).2 ts).exportPromise = some p)
        ∧ (∀ u, s.now + 800 ≤ u → statusOf s.promises p = some PromiseStatus.pending →
            FireEnabled { (s.isInExport).2 with now := u }
            ∧ ({ (s.isInExport).2 with now := u } : Container).debounceFire.exportPromise = none
            ∧ statusOf (({ (s.isInExport).2 with now := u } : Container).debounceFire.promises) p =
                some (PromiseStatus.resolved s.exportPath))) := by
  obtain ⟨sec, cf, es, wv, sv, ep, ed, ps, np, nw⟩ := s
  constructor
  · intro h
    cases h
    rfl
  · intro p t h1 h2
    cases h1
    cases h2
    refine ⟨rfl, rfl, ?_, ?_, ?_⟩
    · rintro u hu ⟨d', hd', hle⟩
      have hd2 : (some (some (nw + 800)) : Option (Option Nat)) = some (some d') := hd'
      injection hd2 with h3
      injection h3 with h4
      have hle2 : d' ≤ u := hle
      have hu2 : u < nw + 800 := hu
      omega
    · intro ts hts
      exact preventedRun_of_schedOk ts _ p (nw + 800) rfl rfl hts
    · intro u hu hpend
      have hsome : (statusOf ps p).isSome := by
        rw [show statusOf ps p = some PromiseStatus.pending from hpend]
        rfl
      have hu2 : nw + 800 ≤ u := hu
      refine ⟨⟨nw + 800, rfl, hu2⟩, ?_, ?_⟩
      · rfl
      · exact statusOf_resolvePromise _ _ _ hsome

/-- Witness for claim C4 at the live session `sPending`. -/
theorem C4_isInExport_witness :
    (Container.isInExport sPending).1 = true
    ∧ (Container.isInExport sPending).2.endDebounce = some (some 800) := by
  have h := (C4_isInExport_requery sPending).2 0 none rfl rfl
  exact ⟨h.1, h.2.1⟩

/-- Claim C5 (confirmed): along any step of the system, a Pending export
session (promise `p` live) returns to Idle only through the armed-and-due
trailing debounce callback firing; that firing resolves `p` with the current
export path and clears both the session promise and the debounce handle. -/
theorem C5_pending_to_idle {s s' : Container} (p : Nat) (hr : Reachable s)
    (hstep : Step s s') (hp : s.exportPromise = some p)
    (hidle : s'.exportPromise = none) :
    (∃ d, s.endDebounce = some (some d) ∧ d ≤ s.now ∧ s' = s.debounceFire)
    ∧ statusOf s'.promises p = some (PromiseStatus.resolved s.exportPath)
    ∧ s'.endDebounce = none := by
  have hi := reachable_inv hr
  cases hstep with
  | selection ev =>
    obtain ⟨ec, w, h⟩ := selection_shape s ev
    rw [h] at hidle
    have h2 : s.exportPromise = none := hidle
    rw [hp] at h2
    cases h2
  | activeEditor ed =>
    obtain ⟨ec, w, h⟩ := activeEditor_shape s ed
    rw [h] at hidle
    have h2 : s.exportPromise = none := hidle
    rw [hp] at h2
    cases h2
  | docChanged =>
    have h2 : s.exportPromise = none := hidle
    rw [hp] at h2
    cases h2
  | docSaved =>
    have h2 : s.exportPromise = none := hidle
    rw [hp] at h2
    cases h2
  | docClosed =>
    have h2 : s.exportPromise = none := hidle
    rw [hp] at h2
    cases h2
  | configChanged e =>
    obtain ⟨c, h⟩ := config_shape s e
    rw [h] at hidle
    have h2 : s.exportPromise = none := hidle
    rw [hp] at h2
    cases h2
  | exportQuery =>
    obtain ⟨e, h⟩ := isInExport_shape s
    rw [h] at hidle
    have h2 : s.exportPromise = none := hidle
    rw [hp] at h2
    cases h2
  | exportStart =>
    obtain ⟨h1, h2, h3, h4⟩ := startExport_of_some s p hp
    rw [h2] at hidle
    cases hidle
  | slideJump t v =>
    obtain ⟨ec, w, h⟩ := goToSlide_shape s t v
    rw [h] at hidle
    have h2 : s.exportPromise = none := hidle
    rw [hp] at h2
    cases h2
  | serverStop =>
    have h2 : s.exportPromise = none := hidle
    rw [hp] at h2
    cases h2
  | surfaceAttach w =>
    obtain ⟨w2, h⟩ := refreshWebView_shape s w
    rw [h] at hidle
    have h2 : s.exportPromise = none := hidle
    rw [hp] at h2
    cases h2
  | fire d h1 h2 =>
    have hsome : (statusOf s.promises p).isSome := by
      rw [hi.1 p hp]
      rfl
    refine ⟨⟨d, h1, h2, rfl⟩, ?_, ?_⟩
    · rw [debounceFire_of_some s p hp]
      exact statusOf_resolvePromise _ _ _ hsome
    · rw [debounceFire_of_some s p hp]
  | tick dt =>
    have h2 : s.exportPromise = none := hidle
    rw [hp] at h2
    cases h2
  | settingsChanged c =>
    have h2 : s.exportPromise = none := hidle
    rw [hp] at h2
    cases h2

/-- Witness for claim C5: in the reachable state `sFire` (armed timer due at
time 800, clock at 800) the fire step resolves promise 0 with the export path
`/export` and clears the debounce handle. -/
theorem C5_pending_to_idle_witness :
    statusOf (Container.debounceFire sFire).promises 0 =
      some (PromiseStatus.resolved "/export")
    ∧ (Container.debounceFire sFire).endDebounce = none := by
  have r0 : Reachable s0 := Reachable.init [] "http://localhost:9000/" 0
  have r1 : Reachable sPending := Reachable.step r0 (Step.exportStart s0)
  have r2 : Reachable (Container.isInExport sPending).2 :=
    Reachable.step r1 (Step.exportQuery sPending)
  have hr : Reachable sFire :=
    Reachable.step r2 (Step.tick (Container.isInExport sPending).2 800)
  have h := C5_pending_to_idle 0 hr (Step.fire sFire 800 rfl (Nat.le_refl 800)) rfl rfl
  exact ⟨h.2.1, h.2.2⟩

/-- Claim C6 (confirmed): the export future's rejection path is dead — in every
state reachable by any sequence of handler invocations, queries, timer
firings, clock advances and settings changes, no export promise is ever in the
rejected state; promises are only ever pending or resolved. -/
theorem C6_reject_never (s : Container) (hr : Reachable s) :
    ∀ q, (q, PromiseStatus.rejected) ∉ s.promises :=
  fun q hm => (reachable_inv hr).2.1 q PromiseStatus.rejected hm rfl

/-- Witness for claim C6 at the freshly constructed container `s0`. -/
theorem C6_reject_never_witness : (3, PromiseStatus.rejected) ∉ s0.promises :=
  C6_reject_never s0 (Reachable.init [] "http://localhost:9000/" 0) 3

/-- Claim C7 (confirmed): the selection-changed handler is a no-op when no
Document Binding exists, when the event's editor is not the bound editor, or
when the selection list is empty; otherwise it performs, in this exact order:
(1) update the Position Model from the first selection's active (cursor) end,
(2) refresh the render surface, pushing a URI built from that pre-refresh
position, (3) refresh the Document Binding, (4) refresh the status view,
(5) refresh the slide-list view. -/
theorem C7_selection_order (s : Container) (ev : TextEditorSelectionChangeEvent) :
    (s.editorContext = none → s.onDidChangeTextEditorSelection ev = (s, []))
    ∧ (∀ ctx, s.editorContext = some ctx → ev.textEditor.id ≠ ctx.editorHandle →
        s.onDidChangeTextEditorSelection ev = (s, []))
    ∧ (∀ ctx, s.editorContext = some ctx → ev.selections = [] →
        s.onDidChangeTextEditorSelection ev = (s, []))
    ∧ (∀ ctx sel rest, s.editorContext = some ctx →
        ev.textEditor.id = ctx.editorHandle → ev.selections = sel :: rest →
        (s.onDidChangeTextEditorSelection ev).2 =
          [Effect.updatePosition sel.active,
           Effect.refreshSurface (Container.getUri
             { s with editorContext := some (ctx.updatePosition sel.active) } true),
           Effect.bindingRefresh, Effect.statusBarUpdate,
           Effect.slidesExplorerUpdate]
        ∧ (s.onDidChangeTextEditorSelection ev).1.editorContext =
            some (ctx.updatePosition sel.active).refresh
        ∧ (s.server.isListening = true →
            Container.getUri
              { s with editorContext := some (ctx.updatePosition sel.active) } true =
              some (s.server.uri ++ "#/" ++
                toString ((ctx.slideOfCursor sel.active).horizontal) ++ "/" ++
                toString ((ctx.slideOfCursor sel.active).vertical) ++ "/" ++
                toString s.now))) := by
  obtain ⟨sec, cf, es, wv, sv, ep, ed, ps, np, nw⟩ := s
  obtain ⟨evEd, evSels⟩ := ev
  refine ⟨?_, ?_, ?_, ?_⟩
  · intro h
    cases h
    rfl
  · intro ctx hc hid
    cases hc
    unfold Container.onDidChangeTextEditorSelection
    dsimp only
    rw [if_pos (Or.inl hid)]
  · intro ctx hc hsel
    cases hc
    cases hsel
    unfold Container.onDidChangeTextEditorSelection
    dsimp only
    rw [if_pos (Or.inr (List.length_nil))]
  · intro ctx sel rest hc hid hsel
    cases hc
    cases hsel
    have hcond :
        ¬(evEd.id ≠ ctx.editorHandle ∨ (sel :: rest : List Selection).length = 0) := by
      rintro (h | h)
      · exact h hid
      · simp at h
    refine ⟨?_, ?_, ?_⟩
    · unfold Container.onDidChangeTextEditorSelection
      dsimp only
      rw [if_neg hcond]
    · unfold Container.onDidChangeTextEditorSelection
      dsimp only
      rw [if_neg hcond]
    · intro hlis
      obtain ⟨svl, svu⟩ := sv
      cases hlis
      rfl

/-- Witness for claim C7 at the bound state `sA` and event `evA`: the exact
five-effect trace, with the surface pushed the pre-refresh position 3/2. -/
theorem C7_selection_order_witness :
    (Container.onDidChangeTextEditorSelection sA evA).2 =
      [Effect.updatePosition ⟨3, 2⟩,
       Effect.refreshSurface (some "http://localhost:9000/#/3/2/0"),
       Effect.bindingRefresh, Effect.statusBarUpdate,
       Effect.slidesExplorerUpdate] := by
  have h := (C7_selection_order sA evA).2.2.2 ctxA ⟨⟨0, 0⟩, ⟨3, 2⟩⟩ [] rfl rfl rfl
  exact h.1

/-- Claim C8 (confirmed): the effective configuration is a pure derived value of
the current state — when a Document Binding with front-matter configuration
exists it is the base configuration overlaid (JS spread) with the binding's
document options, the overlay winning on every key collision; otherwise it is
exactly the base configuration. -/
theorem C8_configuration_merge (s : Container) :
    (∀ c, s.editorContext = some c → c.hasfrontConfig = true →
        s.configuration = mergeConfig s._configuration c.documentOptions
        ∧ ∀ k, lookupc s.configuration k =
            optOr (lookupc c.documentOptions k) (lookupc s._configuration k))
    ∧ (∀ c, s.editorContext = some c → c.hasfrontConfig = false →
        s.configuration = s._configuration)
    ∧ (s.editorContext = none → s.configuration = s._configuration) := by
  obtain ⟨sec, cf, es, wv, sv, ep, ed, ps, np, nw⟩ := s
  refine ⟨?_, ?_, ?_⟩
  · intro c hc hf
    cases hc
    have hcfg : Container.configuration ⟨some c, cf, es, wv, sv, ep, ed, ps, np, nw⟩ =
        mergeConfig cf c.documentOptions := by
      unfold Container.configuration
      dsimp only
      rw [if_pos hf]
    refine ⟨hcfg, ?_⟩
    intro k
    rw [hcfg]
    exact lookupc_merge cf c.documentOptions k
  · intro c hc hf
    cases hc
    have hnf : ¬(c.hasfrontConfig = true) := by
      rw [hf]
      decide
    unfold Container.configuration
    dsimp only
    rw [if_neg hnf]
  · intro h
    cases h
    rfl

/-- Witness for claim C8 at the front-matter state `sF`: the overlay key wins. -/
theorem C8_configuration_witness :
    lookupc (Container.configuration sF) "theme" = some "black" := by
  have h := (C8_configuration_merge sF).1 ctxF rfl rfl
  exact (h.2 "theme").trans rfl

/-- Claim C9 (confirmed): with no Document Binding, `goToSlide(top, vertical)`
is exactly a render-surface refresh — binding, configuration, export session,
promises, server and clock are untouched, while a bound surface is rewritten —
and the position delegation to the binding happens only when a binding
exists. -/
theorem C9_goToSlide_frame (s : Container) (t v : Nat) :
    (s.editorContext = none →
      s.goToSlide t v = s.refreshWebView none
      ∧ (s.goToSlide t v).editorContext = s.editorContext
      ∧ (s.goToSlide t v)._configuration = s._configuration
      ∧ (s.goToSlide t v).exportPromise = s.exportPromise
      ∧ (s.goToSlide t v).endDebounce = s.endDebounce
      ∧ (s.goToSlide t v).promises = s.promises
      ∧ (s.goToSlide t v).server = s.server
      ∧ (s.goToSlide t v).now = s.now
      ∧ (∀ w, s.webView = some w →
          (s.goToSlide t v).webView = some ⟨webViewHtml (s.getUri true)⟩))
    ∧ (∀ c, s.editorContext = some c →
        (s.goToSlide t v).editorContext = some (c.goToSlide t v)) := by
  obtain ⟨sec, cf, es, wv, sv, ep, ed, ps, np, nw⟩ := s
  constructor
  · intro h
    cases h
    obtain ⟨w, hw⟩ :=
      refreshWebView_shape ⟨none, cf, es, wv, sv, ep, ed, ps, np, nw⟩ none
    refine ⟨rfl, ?_, ?_, ?_, ?_, ?_, ?_, ?_, ?_⟩
    · exact (congrArg Container.editorContext hw).trans rfl
    · exact (congrArg Container._configuration hw).trans rfl
    · exact (congrArg Container.exportPromise hw).trans rfl
    · exact (congrArg Container.endDebounce hw).trans rfl
    · exact (congrArg Container.promises hw).trans rfl
    · exact (congrArg Container.server hw).trans rfl
    · exact (congrArg Container.now hw).trans rfl
    · intro w0 hw0
      cases hw0
      rfl
  · intro c hc
    cases hc
    exact (refreshWebView_editorContext
      ⟨some (c.goToSlide t v), cf, es, wv, sv, ep, ed, ps, np, nw⟩ none).trans rfl

/-- Witness for claim C9 at `sNull` (no binding, surface attached): the export
session stays absent and the surface is rewritten. -/
theorem C9_goToSlide_witness :
    (Container.goToSlide sNull 2 1).exportPromise = none
    ∧ (Container.goToSlide sNull 2 1).webView =
        some ⟨webViewHtml (Container.getUri sNull true)⟩ := by
  have h := (C9_goToSlide_frame sNull 2 1).1 rfl
  refine ⟨?_, ?_⟩
  · exact (h.2.2.2.1).trans rfl
  · exact h.2.2.2.2.2.2.2.2 ⟨"previous content"⟩ rfl

/-- Claim C10 (confirmed): when a render surface is bound and `getUri()` is
absent, `refreshWebView` still overwrites the surface's content, and the
markup embeds the literal text `null` as the frame's source address. -/
theorem C10_refresh_pushes_null (s : Container) (w : Webview)
    (hw : s.webView = some w) (hu : Container.getUri s true = none) :
    (s.refreshWebView none).webView = some ⟨webViewHtml none⟩
    ∧ webViewHtml none =
      "<style>html, body, iframe \x7b height: 100% \x7d</style>\n      <iframe src=\"null\" frameBorder=\"0\" style=\"width: 100%; height: 100%\" />" := by
  constructor
  · obtain ⟨sec, cf, es, wv, sv, ep, ed, ps, np, nw⟩ := s
    cases hw
    have h : (Container.refreshWebView ⟨sec, cf, es, some w, sv, ep, ed, ps, np, nw⟩ none).webView =
        some ⟨webViewHtml
          (Container.getUri ⟨sec, cf, es, some w, sv, ep, ed, ps, np, nw⟩ true)⟩ := rfl
    rw [h, hu]
  · rfl

/-- Witness for claim C10 at `sNull` (surface attached, server not listening). -/
theorem C10_refresh_null_witness :
    (Container.refreshWebView sNull none).webView = some ⟨webViewHtml none⟩ :=
  (C10_refresh_pushes_null sNull ⟨"previous content"⟩ rfl rfl).1

end VscodeReveal
